import Mathlib

/-!
Verification of the opentax-next progressive tax calculator core.

All currency amounts are embedded as rationals.  Each definition below is a
direct translation of one function of the repository:

* `calculateTaxForRegime`, `calculateMarginalTaxBenefit`,
  `generateOptimizationSuggestions` from `src/utils/fluidCompute.ts`
  (tax optimizer section);
* `detectSkew`, `correctSkew`, `validateTaxCalculation`,
  `normalizeTaxComponents` from `src/utils/fluidCompute.ts`
  (skew protection section);
* `taxCalcCompute` is the calculation closure inside
  `src/components/calculator/TaxCalculator.tsx` (`calculateTax`), with the
  UI progress reporting dropped;
* `tiCalculateTax`, `getTaxSlabs`, `TAX_SLABS_2024_25` from the tax
  information service source file;
* `p3SlabIter`, `slabsFor` from the direct calculator source file
  (`calculateTaxDirectly`).
-/

namespace OpenTaxNext

/-- The two tax regimes of the union type used across the repository. -/
inductive Regime where
  | old
  | new
deriving DecidableEq

/-- `TaxInput` of the tax optimizer and of the calculator component. -/
structure TaxInput where
  income : ℚ
  deductions : ℚ
  regime : Regime
  isSalaried : Bool

/-- New regime FY 2024-25 slab if-chain of `calculateTaxForRegime`
(also appearing verbatim in the calculator component). -/
def newRegimeChain (taxableIncome : ℚ) : ℚ :=
  if taxableIncome ≤ 300000 then 0
  else if taxableIncome ≤ 700000 then (taxableIncome - 300000) * 0.05
  else if taxableIncome ≤ 1000000 then 20000 + (taxableIncome - 700000) * 0.1
  else if taxableIncome ≤ 1200000 then 50000 + (taxableIncome - 1000000) * 0.15
  else if taxableIncome ≤ 1500000 then 80000 + (taxableIncome - 1200000) * 0.2
  else 140000 + (taxableIncome - 1500000) * 0.3

/-- Old regime FY 2024-25 slab if-chain of `calculateTaxForRegime`
(also appearing verbatim in the calculator component). -/
def oldRegimeChain (taxableIncome : ℚ) : ℚ :=
  if taxableIncome ≤ 250000 then 0
  else if taxableIncome ≤ 500000 then (taxableIncome - 250000) * 0.05
  else if taxableIncome ≤ 1000000 then 12500 + (taxableIncome - 500000) * 0.2
  else 112500 + (taxableIncome - 1000000) * 0.3

/-- `calculateTaxForRegime` from the tax optimizer: slab tax, section 87A
rebate, then a flat 4 percent cess; returns the single tax number. -/
def calculateTaxForRegime (input : TaxInput) : ℚ :=
  let standardDeduction : ℚ :=
    if input.isSalaried then (if input.regime = Regime.new then 75000 else 50000) else 0
  let taxableIncome : ℚ :=
    max 0 (input.income - standardDeduction -
      (if input.regime = Regime.old then input.deductions else 0))
  let tax : ℚ :=
    if input.regime = Regime.new then
      let t := newRegimeChain taxableIncome
      if taxableIncome ≤ 700000 then max 0 (t - 25000) else t
    else
      let t := oldRegimeChain taxableIncome
      if taxableIncome ≤ 500000 then max 0 (t - 12500) else t
  tax * 1.04

/-- `calculateMarginalTaxBenefit` from the tax optimizer: marginal rate is
selected from the gross income by strict comparisons, then cess-adjusted. -/
def calculateMarginalTaxBenefit (income deductionAmount : ℚ) (regime : Regime) : ℚ :=
  let marginalRate : ℚ :=
    if regime = Regime.new then
      if 1500000 < income then 0.3
      else if 1200000 < income then 0.2
      else if 1000000 < income then 0.15
      else if 700000 < income then 0.1
      else if 300000 < income then 0.05
      else 0
    else
      if 1000000 < income then 0.3
      else if 500000 < income then 0.2
      else if 250000 < income then 0.05
      else 0
  deductionAmount * marginalRate * 1.04

/-- `OptimizationSuggestion` (title and description display strings are
omitted; the identifier and the numeric fields are kept). -/
structure OptimizationSuggestion where
  id : String
  potentialSaving : ℚ
  applicability : ℚ
  complexity : ℚ
deriving DecidableEq

/-- `generateOptimizationSuggestions` from the tax optimizer.  The second
`taxResult` parameter of the source function is unused by its body and is
dropped.  Suggestions are emitted in source order and finally sorted in
descending order of `potentialSaving` (JavaScript `Array.prototype.sort`
with comparator `b.potentialSaving - a.potentialSaving`, a stable sort). -/
def generateOptimizationSuggestions (taxInput : TaxInput) : List OptimizationSuggestion :=
  let oldRegimeTax := calculateTaxForRegime { taxInput with regime := Regime.old }
  let newRegimeTax := calculateTaxForRegime { taxInput with regime := Regime.new }
  let switchSuggestions : List OptimizationSuggestion :=
    if taxInput.regime = Regime.old ∧ newRegimeTax < oldRegimeTax then
      [{ id := "switch-to-new", potentialSaving := oldRegimeTax - newRegimeTax,
         applicability := 100, complexity := 20 }]
    else if taxInput.regime = Regime.new ∧ oldRegimeTax < newRegimeTax then
      [{ id := "switch-to-old", potentialSaving := newRegimeTax - oldRegimeTax,
         applicability := 100, complexity := 40 }]
    else []
  let standardDeductionSuggestions : List OptimizationSuggestion :=
    if taxInput.isSalaried ∧ taxInput.regime = Regime.old then
      [{ id := "standard-deduction-benefit",
         potentialSaving := calculateMarginalTaxBenefit taxInput.income (75000 - 50000) Regime.new,
         applicability := 90, complexity := 10 }]
    else []
  let maximize80C : List OptimizationSuggestion :=
    if taxInput.regime = Regime.old ∧ taxInput.deductions < 150000 then
      [{ id := "maximize-80c",
         potentialSaving :=
           calculateMarginalTaxBenefit taxInput.income (150000 - taxInput.deductions) Regime.old,
         applicability := 85, complexity := 50 }]
    else []
  let oldRegimeFixed : List OptimizationSuggestion :=
    if taxInput.regime = Regime.old then
      [{ id := "health-insurance",
         potentialSaving := calculateMarginalTaxBenefit taxInput.income 25000 Regime.old,
         applicability := 75, complexity := 30 },
       { id := "home-loan-interest",
         potentialSaving := calculateMarginalTaxBenefit taxInput.income 200000 Regime.old,
         applicability := 60, complexity := 40 }]
    else []
  let simplified : List OptimizationSuggestion :=
    if taxInput.regime = Regime.old ∧ taxInput.deductions < 50000 then
      [{ id := "simplified-compliance", potentialSaving := 0,
         applicability := 70, complexity := 10 }]
    else []
  (switchSuggestions ++ standardDeductionSuggestions ++ maximize80C ++
    oldRegimeFixed ++ simplified).mergeSort
    (fun a b => decide (b.potentialSaving ≤ a.potentialSaving))

/-! ### Skew protection utilities -/

/-- Fold computing `Math.max(...parts)`; `none` stands for the minus
infinity returned on an empty argument list. -/
def jsMaxFold : List ℚ → Option ℚ
  | [] => none
  | v :: rest =>
    match jsMaxFold rest with
    | none => some v
    | some m => some (max v m)

/-- JavaScript `Array.prototype.indexOf`: index of the first occurrence of
`x`, or `-1` when `x` does not occur. -/
def jsIndexOf (x : ℚ) : List ℚ → ℤ
  | [] => -1
  | v :: rest =>
    if v = x then 0
    else
      let r := jsIndexOf x rest
      if r = -1 then -1 else r + 1

/-- The `parts.map((value, index) => ...)` step of `correctSkew`:
add `difference` to the entry whose index equals `maxIdx`. -/
def applySkew (difference : ℚ) (maxIdx : ℤ) : ℤ → List ℚ → List ℚ
  | _, [] => []
  | i, v :: rest =>
    (if i = maxIdx then v + difference else v) :: applySkew difference maxIdx (i + 1) rest

/-- `correctSkew` from the skew protection utility: parts are returned
unchanged when the drift is below `0.01`; otherwise the whole difference is
added to the first occurrence of the largest element. -/
def correctSkew (parts : List ℚ) (expectedTotal : ℚ) : List ℚ :=
  let actualTotal := parts.sum
  let difference := expectedTotal - actualTotal
  if |difference| < 0.01 then parts
  else
    let maxIdx : ℤ :=
      match jsMaxFold parts with
      | none => -1
      | some m => jsIndexOf m parts
    applySkew difference maxIdx 0 parts

/-- `SkewDetectionResult` of `detectSkew`. -/
structure SkewDetectionResult where
  hasSkew : Bool
  skewAmount : ℚ
  correctedValue : ℚ

/-- `detectSkew` from the skew protection utility; the source declares
`tolerance` with default value `0.01`, made explicit here. -/
def detectSkew (parts : List ℚ) (expectedTotal tolerance : ℚ) : SkewDetectionResult :=
  let actualTotal := parts.sum
  let difference := |expectedTotal - actualTotal|
  { hasSkew := decide (tolerance < difference),
    skewAmount := expectedTotal - actualTotal,
    correctedValue := actualTotal + (expectedTotal - actualTotal) }

/-- The three tax components record the calculator passes to
`normalizeTaxComponents` (object key order: incomeTax, cess, surcharge). -/
structure TaxComponents where
  incomeTax : ℚ
  cess : ℚ
  surcharge : ℚ

/-- `normalizeTaxComponents` from the skew protection utility, at the
record type used by the calculator. -/
def normalizeTaxComponents (components : TaxComponents) (total : ℚ) : TaxComponents :=
  let values := [components.incomeTax, components.cess, components.surcharge]
  let sum := values.sum
  if |sum - total| < 0.01 then components
  else
    let correctedValues := correctSkew values total
    { incomeTax := correctedValues.getD 0 0,
      cess := correctedValues.getD 1 0,
      surcharge := correctedValues.getD 2 0 }

/-- The bracket loop of `validateTaxCalculation`: each reference entry is a
pair (threshold, rate); the upper bound of the last bracket is `Infinity`,
so its taxed amount is the whole remaining income. -/
def refExpectedTax : List (ℚ × ℚ) → ℚ → ℚ
  | [], _ => 0
  | (threshold, rate) :: rest, remainingIncome =>
    let taxableInThisBracket :=
      match rest with
      | [] => remainingIncome
      | (nextThreshold, _) :: _ => min remainingIncome (nextThreshold - threshold)
    let contribution := if 0 < taxableInThisBracket then taxableInThisBracket * rate else 0
    let remaining :=
      if 0 < taxableInThisBracket then remainingIncome - taxableInThisBracket
      else remainingIncome
    if remaining ≤ 0 then contribution
    else contribution + refExpectedTax rest remaining

/-- `validateTaxCalculation` from the skew protection utility: recompute
the tax from the reference rates and replace the calculated value when the
difference exceeds max(0.5 percent of expected, 1). -/
def validateTaxCalculation (taxableIncome calculatedTax : ℚ)
    (referenceRates : List (ℚ × ℚ)) : ℚ :=
  let expectedTax := refExpectedTax referenceRates taxableIncome
  let difference := |expectedTax - calculatedTax|
  let tolerance := max (expectedTax * 0.005) 1
  if tolerance < difference then expectedTax else calculatedTax

/-! ### The calculator component (`TaxCalculator.tsx`) -/

/-- The tiered surcharge if-chain appearing verbatim both in the
calculator component and in the service `calculateTax`. -/
def tieredSurcharge (taxableIncome incomeTax : ℚ) : ℚ :=
  if 5000000 < taxableIncome ∧ taxableIncome ≤ 10000000 then incomeTax * 0.1
  else if 10000000 < taxableIncome ∧ taxableIncome ≤ 20000000 then incomeTax * 0.15
  else if 20000000 < taxableIncome ∧ taxableIncome ≤ 50000000 then incomeTax * 0.25
  else if 50000000 < taxableIncome then incomeTax * 0.37
  else 0

/-- `oldRegimeRates` reference table of the calculator component. -/
def oldRegimeRates : List (ℚ × ℚ) :=
  [(0, 0), (250000, 0.05), (500000, 0.2), (1000000, 0.3)]

/-- `newRegimeRates` reference table of the calculator component. -/
def newRegimeRates : List (ℚ × ℚ) :=
  [(0, 0), (300000, 0.05), (700000, 0.1), (1000000, 0.15), (1200000, 0.2), (1500000, 0.3)]

/-- The `TaxResult` produced by the calculator component. -/
structure CalcResult where
  taxableIncome : ℚ
  incomeTax : ℚ
  cess : ℚ
  surcharge : ℚ
  totalTax : ℚ
  effectiveRate : ℚ
  standardDeduction : ℚ

/-- The calculation closure of `calculateTax` in the calculator component:
slab if-chain, rebate, reference validation, cess, tiered surcharge,
effective rate over taxable income, then skew normalization. -/
def taxCalcCompute (input : TaxInput) : CalcResult :=
  let standardDeduction : ℚ :=
    if input.isSalaried then (if input.regime = Regime.new then 75000 else 50000) else 0
  let taxableIncome : ℚ :=
    max 0 (input.income - standardDeduction -
      (if input.regime = Regime.old then input.deductions else 0))
  let incomeTax : ℚ :=
    if input.regime = Regime.old then
      let t := oldRegimeChain taxableIncome
      let t := if taxableIncome ≤ 500000 then max 0 (t - 12500) else t
      validateTaxCalculation taxableIncome t oldRegimeRates
    else
      let t := newRegimeChain taxableIncome
      let t := if taxableIncome ≤ 700000 then max 0 (t - 25000) else t
      validateTaxCalculation taxableIncome t newRegimeRates
  let cess := incomeTax * 0.04
  let surcharge := tieredSurcharge taxableIncome incomeTax
  let totalTax := incomeTax + cess + surcharge
  let effectiveRate := if 0 < taxableIncome then totalTax / taxableIncome * 100 else 0
  let normalizedComponents :=
    normalizeTaxComponents
      { incomeTax := incomeTax, cess := cess, surcharge := surcharge } totalTax
  let skewResult :=
    detectSkew
      [normalizedComponents.incomeTax, normalizedComponents.cess,
        normalizedComponents.surcharge] totalTax 0.01
  { taxableIncome := taxableIncome,
    incomeTax := normalizedComponents.incomeTax,
    cess := normalizedComponents.cess,
    surcharge := normalizedComponents.surcharge,
    totalTax := if skewResult.hasSkew then skewResult.correctedValue else totalTax,
    effectiveRate := effectiveRate,
    standardDeduction := standardDeduction }

/-! ### The tax information service -/

/-- One slab entry of the service: `max = none` encodes the `null` upper
bound of the top slab; rates are whole percent numbers. -/
structure TISlab where
  lo : ℚ
  hi : Option ℚ
  rate : ℚ

/-- One entry of `TAX_SLABS_2024_25`, keyed by regime string. -/
structure TaxSlabTable where
  regime : String
  financialYear : String
  slabs : List TISlab

/-- Slab list of the new-regime entry of `TAX_SLABS_2024_25`. -/
def taxSlabs2024_25NewSlabs : List TISlab :=
  [{ lo := 0, hi := some 300000, rate := 0 },
   { lo := 300000, hi := some 600000, rate := 5 },
   { lo := 600000, hi := some 900000, rate := 10 },
   { lo := 900000, hi := some 1200000, rate := 15 },
   { lo := 1200000, hi := some 1500000, rate := 20 },
   { lo := 1500000, hi := none, rate := 30 }]

/-- Slab list of the old-regime entry of `TAX_SLABS_2024_25`. -/
def taxSlabs2024_25OldSlabs : List TISlab :=
  [{ lo := 0, hi := some 250000, rate := 0 },
   { lo := 250000, hi := some 500000, rate := 5 },
   { lo := 500000, hi := some 1000000, rate := 20 },
   { lo := 1000000, hi := none, rate := 30 }]

/-- The hardcoded `TAX_SLABS_2024_25` constant of the service. -/
def TAX_SLABS_2024_25 : List TaxSlabTable :=
  [{ regime := "new", financialYear := "2024-25", slabs := taxSlabs2024_25NewSlabs },
   { regime := "old", financialYear := "2024-25", slabs := taxSlabs2024_25OldSlabs }]

/-- `getTaxSlabs` of the service: ignores its financial-year argument and
returns the hardcoded table. -/
def getTaxSlabs (_financialYear : String) : List TaxSlabTable :=
  TAX_SLABS_2024_25

/-- The slab loop of the service `calculateTax`: break when the remaining
income is exhausted, otherwise tax min(remaining, slab width) at
`rate / 100` and continue. -/
def slabLoop : List TISlab → ℚ → ℚ
  | [], _ => 0
  | slab :: rest, remainingIncome =>
    if remainingIncome ≤ 0 then 0
    else
      let slabAmount :=
        match slab.hi with
        | none => remainingIncome
        | some hi => min remainingIncome (hi - slab.lo)
      slabAmount * (slab.rate / 100) + slabLoop rest (remainingIncome - slabAmount)

/-- The result record of the service `calculateTax`. -/
structure TIResult where
  taxableIncome : ℚ
  incomeTax : ℚ
  surcharge : ℚ
  cess : ℚ
  totalTax : ℚ
  effectiveTaxRate : ℚ
deriving DecidableEq

/-- `calculateTax` of the tax information service.  The only failure is the
slab-table lookup for an unrecognized regime string; there is no input
validation.  The cess base is `incomeTax + surcharge`, and the effective
rate divides by the gross income with no zero guard (Lean division by zero
yields zero where JavaScript yields NaN). -/
def tiCalculateTax (income deductions : ℚ) (regime : String) : Except String TIResult :=
  match (getTaxSlabs ("2024-25")).find? (fun slab => slab.regime == regime) with
  | none => Except.error ("Tax slabs not found for regime " ++ regime ++
      " and financial year 2024-25")
  | some taxSlabs =>
    let taxableIncome := if regime == "old" then max 0 (income - deductions) else income
    let incomeTax := slabLoop taxSlabs.slabs taxableIncome
    let surcharge := tieredSurcharge taxableIncome incomeTax
    let cess := (incomeTax + surcharge) * 0.04
    let totalTax := incomeTax + surcharge + cess
    let effectiveTaxRate := totalTax / income * 100
    Except.ok
      { taxableIncome := taxableIncome, incomeTax := incomeTax, surcharge := surcharge,
        cess := cess, totalTax := totalTax, effectiveTaxRate := effectiveTaxRate }

/-! ### The direct calculator (`calculateTaxDirectly`) -/

/-- One slab of the direct calculator: `limit = none` encodes the
`Infinity` upper limit of the top slab. -/
structure P3Slab where
  limit : Option ℚ
  rate : ℚ
deriving DecidableEq

/-- `newRegimeSlabs` of the direct calculator (labeled FY 2023-24). -/
def p3NewRegimeSlabs : List P3Slab :=
  [{ limit := some 300000, rate := 0 },
   { limit := some 600000, rate := 0.05 },
   { limit := some 900000, rate := 0.10 },
   { limit := some 1200000, rate := 0.15 },
   { limit := some 1500000, rate := 0.20 },
   { limit := none, rate := 0.30 }]

/-- `oldRegimeSlabs` of the direct calculator (labeled FY 2023-24). -/
def p3OldRegimeSlabs : List P3Slab :=
  [{ limit := some 250000, rate := 0 },
   { limit := some 500000, rate := 0.05 },
   { limit := some 1000000, rate := 0.20 },
   { limit := none, rate := 0.30 }]

/-- Slab-table selection of `calculateTaxDirectly`: for the old regime the
zero-rate slab limit is lifted to 300000 for age 60 to 79 (keeping the
remaining slabs), and to 500000 for age at least 80 (dropping the two
lowest slabs). -/
def slabsFor (regime : String) (age : ℤ) : List P3Slab :=
  if regime == "old" then
    if 60 ≤ age ∧ age < 80 then
      { limit := some 300000, rate := 0 } :: p3OldRegimeSlabs.drop 1
    else if 80 ≤ age then
      { limit := some 500000, rate := 0 } :: p3OldRegimeSlabs.drop 2
    else p3OldRegimeSlabs
  else p3NewRegimeSlabs

/-- The slab loop of `calculateTaxDirectly`: `prevLimit` is the limit of
the previous slab (0 initially); the width of the `Infinity` slab is
infinite, so its taxed amount is the whole remaining income.  The tax of a
slab accrues before the exhaustion break is tested. -/
def p3SlabIter (prevLimit : ℚ) : List P3Slab → ℚ → ℚ
  | [], _ => 0
  | slab :: rest, remainingIncome =>
    let taxableInThisSlab :=
      match slab.limit with
      | none => remainingIncome
      | some limit => min remainingIncome (limit - prevLimit)
    let taxForThisSlab := taxableInThisSlab * slab.rate
    let remaining := remainingIncome - taxableInThisSlab
    if remaining ≤ 0 then taxForThisSlab
    else taxForThisSlab + p3SlabIter (slab.limit.getD prevLimit) rest remaining

/-- Basic tax of `calculateTaxDirectly` over a slab table. -/
def p3Tax (slabs : List P3Slab) (taxableIncome : ℚ) : ℚ :=
  p3SlabIter 0 slabs taxableIncome

/-! ### Claim-side definitions

These two definitions follow the words of the specification, for the
refinement-style comparisons; they are not translations of the source. -/

/-- Claim-side: the standard old-regime table with the upper bound of the
zero-rate bracket replaced by `newLimit` and all other brackets
unchanged. -/
def replaceZeroBracketLimit (slabs : List P3Slab) (newLimit : ℚ) : List P3Slab :=
  match slabs with
  | [] => []
  | slab :: rest => { limit := some newLimit, rate := slab.rate } :: rest

/-- Claim-side: the rate of the old-regime FY 2024-25 bracket that
contains the given amount (brackets read as left-open intervals). -/
def claimOldBracketRate (amount : ℚ) : ℚ :=
  if amount ≤ 250000 then 0
  else if amount ≤ 500000 then 0.05
  else if amount ≤ 1000000 then 0.2
  else 0.3

/-! ### Proof-side helper definitions -/

/-- Closed clamp form of `oldRegimeChain`, used to prove monotonicity. -/
def oldChainClosed (t : ℚ) : ℚ :=
  0.05 * max 0 (min t 500000 - 250000) + 0.2 * max 0 (min t 1000000 - 500000) +
    0.3 * max 0 (t - 1000000)

/-- Closed clamp form of `newRegimeChain`, used to prove monotonicity. -/
def newChainClosed (t : ℚ) : ℚ :=
  0.05 * max 0 (min t 700000 - 300000) + 0.1 * max 0 (min t 1000000 - 700000) +
    0.15 * max 0 (min t 1200000 - 1000000) + 0.2 * max 0 (min t 1500000 - 1200000) +
    0.3 * max 0 (t - 1500000)

/-- The surcharge tier rate as a function of taxable income. -/
def surchargeRate (t : ℚ) : ℚ :=
  if t ≤ 5000000 then 0
  else if t ≤ 10000000 then 0.1
  else if t ≤ 20000000 then 0.15
  else if t ≤ 50000000 then 0.25
  else 0.37

/-- Standard deduction selected by the calculator component. -/
def calcStandardDeduction (input : TaxInput) : ℚ :=
  if input.isSalaried then (if input.regime = Regime.new then 75000 else 50000) else 0

/-- Taxable income computed by the calculator component. -/
def calcTaxableIncome (input : TaxInput) : ℚ :=
  max 0 (input.income - calcStandardDeduction input -
    (if input.regime = Regime.old then input.deductions else 0))

/-- Closed form of the post-rebate, reference-validated income tax of the
calculator component: the validation step reinstates the pre-rebate slab
tax whenever it exceeds one rupee. -/
def calcValidatedTax (regime : Regime) (t : ℚ) : ℚ :=
  if regime = Regime.old then
    (if 1 < oldRegimeChain t then oldRegimeChain t else 0)
  else
    (if 1 < newRegimeChain t then newRegimeChain t else 0)

/-- The post-rebate (pre-validation) tax of `calculateTaxForRegime` and of
the calculator component, as a function of regime and taxable income. -/
def postRebate (r : Regime) (t : ℚ) : ℚ :=
  if r = Regime.new then
    (if t ≤ 700000 then max 0 (newRegimeChain t - 25000) else newRegimeChain t)
  else
    (if t ≤ 500000 then max 0 (oldRegimeChain t - 12500) else oldRegimeChain t)

/-! ## Lemmas about the slab chains -/

theorem oldRegimeChain_eq_closed (t : ℚ) : oldRegimeChain t = oldChainClosed t := by
  unfold oldRegimeChain oldChainClosed
  rcases le_or_lt t 250000 with h1 | h1
  · rw [if_pos h1, min_eq_left (by linarith), min_eq_left (by linarith),
      max_eq_left (by linarith), max_eq_left (by linarith), max_eq_left (by linarith)]
    ring
  · rcases le_or_lt t 500000 with h2 | h2
    · rw [if_neg (by linarith), if_pos h2, min_eq_left (by linarith),
        min_eq_left (by linarith), max_eq_right (by linarith),
        max_eq_left (by linarith), max_eq_left (by linarith)]
      ring
    · rcases le_or_lt t 1000000 with h3 | h3
      · rw [if_neg (by linarith), if_neg (by linarith), if_pos h3,
          min_eq_right (by linarith), min_eq_left (by linarith),
          max_eq_right (by linarith), max_eq_right (by linarith),
          max_eq_left (by linarith)]
        ring
      · rw [if_neg (by linarith), if_neg (by linarith), if_neg (by linarith),
          min_eq_right (by linarith), min_eq_right (by linarith),
          max_eq_right (by linarith), max_eq_right (by linarith),
          max_eq_right (by linarith)]
        ring

theorem newRegimeChain_eq_closed (t : ℚ) : newRegimeChain t = newChainClosed t := by
  unfold newRegimeChain newChainClosed
  rcases le_or_lt t 300000 with h1 | h1
  · rw [if_pos h1, min_eq_left (by linarith), min_eq_left (by linarith),
      min_eq_left (by linarith), min_eq_left (by linarith),
      max_eq_left (by linarith), max_eq_left (by linarith), max_eq_left (by linarith),
      max_eq_left (by linarith), max_eq_left (by linarith)]
    ring
  · rcases le_or_lt t 700000 with h2 | h2
    · rw [if_neg (by linarith), if_pos h2, min_eq_left (by linarith),
        min_eq_left (by linarith), min_eq_left (by linarith), min_eq_left (by linarith),
        max_eq_right (by linarith), max_eq_left (by linarith), max_eq_left (by linarith),
        max_eq_left (by linarith), max_eq_left (by linarith)]
      ring
    · rcases le_or_lt t 1000000 with h3 | h3
      · rw [if_neg (by linarith), if_neg (by linarith), if_pos h3,
          min_eq_right (by linarith), min_eq_left (by linarith),
          min_eq_left (by linarith), min_eq_left (by linarith),
          max_eq_right (by linarith), max_eq_right (by linarith),
          max_eq_left (by linarith), max_eq_left (by linarith), max_eq_left (by linarith)]
        ring
      · rcases le_or_lt t 1200000 with h4 | h4
        · rw [if_neg (by linarith), if_neg (by linarith), if_neg (by linarith), if_pos h4,
            min_eq_right (by linarith), min_eq_right (by linarith),
            min_eq_left (by linarith), min_eq_left (by linarith),
            max_eq_right (by linarith), max_eq_right (by linarith),
            max_eq_right (by linarith), max_eq_left (by linarith), max_eq_left (by linarith)]
          ring
        · rcases le_or_lt t 1500000 with h5 | h5
          · rw [if_neg (by linarith), if_neg (by linarith), if_neg (by linarith),
              if_neg (by linarith), if_pos h5,
              min_eq_right (by linarith), min_eq_right (by linarith),
              min_eq_right (by linarith), min_eq_left (by linarith),
              max_eq_right (by linarith), max_eq_right (by linarith),
              max_eq_right (by linarith), max_eq_right (by linarith),
              max_eq_left (by linarith)]
            ring
          · rw [if_neg (by linarith), if_neg (by linarith), if_neg (by linarith),
              if_neg (by linarith), if_neg (by linarith),
              min_eq_right (by linarith), min_eq_right (by linarith),
              min_eq_right (by linarith), min_eq_right (by linarith),
              max_eq_right (by linarith), max_eq_right (by linarith),
              max_eq_right (by linarith), max_eq_right (by linarith),
              max_eq_right (by linarith)]
            ring

theorem oldRegimeChain_mono {a b : ℚ} (hab : a ≤ b) :
    oldRegimeChain a ≤ oldRegimeChain b := by
  rw [oldRegimeChain_eq_closed, oldRegimeChain_eq_closed]
  unfold oldChainClosed
  gcongr

theorem newRegimeChain_mono {a b : ℚ} (hab : a ≤ b) :
    newRegimeChain a ≤ newRegimeChain b := by
  rw [newRegimeChain_eq_closed, newRegimeChain_eq_closed]
  unfold newChainClosed
  gcongr

theorem oldRegimeChain_nonneg (t : ℚ) : 0 ≤ oldRegimeChain t := by
  rw [oldRegimeChain_eq_closed]
  unfold oldChainClosed
  positivity

theorem newRegimeChain_nonneg (t : ℚ) : 0 ≤ newRegimeChain t := by
  rw [newRegimeChain_eq_closed]
  unfold newChainClosed
  positivity

theorem oldRegimeChain_le_rebate {t : ℚ} (h : t ≤ 500000) : oldRegimeChain t ≤ 12500 := by
  unfold oldRegimeChain
  rcases le_or_lt t 250000 with h1 | h1
  · rw [if_pos h1]; norm_num
  · rw [if_neg (by linarith), if_pos h]; linarith

theorem newRegimeChain_le_rebate {t : ℚ} (h : t ≤ 700000) : newRegimeChain t ≤ 25000 := by
  unfold newRegimeChain
  rcases le_or_lt t 300000 with h1 | h1
  · rw [if_pos h1]; norm_num
  · rw [if_neg (by linarith), if_pos h]; linarith

theorem oldRegimeChain_gt_one {t : ℚ} (h : 500000 < t) : 1 < oldRegimeChain t := by
  unfold oldRegimeChain
  rcases le_or_lt t 1000000 with h3 | h3
  · rw [if_neg (by linarith), if_neg (by linarith), if_pos h3]; linarith
  · rw [if_neg (by linarith), if_neg (by linarith), if_neg (by linarith)]; linarith

theorem newRegimeChain_gt_one {t : ℚ} (h : 700000 < t) : 1 < newRegimeChain t := by
  unfold newRegimeChain
  rcases le_or_lt t 1000000 with h3 | h3
  · rw [if_neg (by linarith), if_neg (by linarith), if_pos h3]; linarith
  · rcases le_or_lt t 1200000 with h4 | h4
    · rw [if_neg (by linarith), if_neg (by linarith), if_neg (by linarith), if_pos h4]
      linarith
    · rcases le_or_lt t 1500000 with h5 | h5
      · rw [if_neg (by linarith), if_neg (by linarith), if_neg (by linarith),
          if_neg (by linarith), if_pos h5]
        linarith
      · rw [if_neg (by linarith), if_neg (by linarith), if_neg (by linarith),
          if_neg (by linarith), if_neg (by linarith)]
        linarith

/-! ## Step lemmas for the reference-rate bracket loop -/

theorem refExpectedTax_stop {threshold rate nt nr : ℚ} {rest : List (ℚ × ℚ)} {rem : ℚ}
    (h1 : 0 < rem) (h2 : rem ≤ nt - threshold) :
    refExpectedTax ((threshold, rate) :: (nt, nr) :: rest) rem = rem * rate := by
  simp only [refExpectedTax]
  rw [min_eq_left h2, if_pos h1, if_pos h1, if_pos (by linarith)]

theorem refExpectedTax_skip {threshold rate nt nr : ℚ} {rest : List (ℚ × ℚ)} {rem : ℚ}
    (h2 : nt - threshold ≤ rem) (hw : 0 < nt - threshold)
    (h3 : 0 < rem - (nt - threshold)) :
    refExpectedTax ((threshold, rate) :: (nt, nr) :: rest) rem =
      (nt - threshold) * rate + refExpectedTax ((nt, nr) :: rest) (rem - (nt - threshold)) := by
  simp only [refExpectedTax]
  rw [min_eq_right h2, if_pos hw, if_pos hw, if_neg (by linarith)]

theorem refExpectedTax_last {threshold rate rem : ℚ} (h1 : 0 < rem) :
    refExpectedTax [(threshold, rate)] rem = rem * rate := by
  simp only [refExpectedTax]
  rw [if_pos h1, if_pos h1, if_pos (by linarith)]

theorem refExpectedTax_nonpos {threshold rate nt nr : ℚ} {rest : List (ℚ × ℚ)} {rem : ℚ}
    (h1 : rem ≤ 0) (hw : 0 < nt - threshold) :
    refExpectedTax ((threshold, rate) :: (nt, nr) :: rest) rem = 0 := by
  simp only [refExpectedTax]
  rw [min_eq_left (by linarith), if_neg (not_lt.mpr h1), if_neg (not_lt.mpr h1), if_pos h1]

theorem refExpectedTax_oldRates (t : ℚ) :
    refExpectedTax oldRegimeRates t = oldRegimeChain t := by
  unfold oldRegimeRates oldRegimeChain
  rcases le_or_lt t 0 with h0 | h0
  · rw [refExpectedTax_nonpos h0 (by norm_num), if_pos (by linarith)]
  · rcases le_or_lt t 250000 with h1 | h1
    · rw [refExpectedTax_stop h0 (by linarith), if_pos h1]
      ring
    · rw [refExpectedTax_skip (by linarith) (by norm_num) (by linarith)]
      rcases le_or_lt t 500000 with h2 | h2
      · rw [refExpectedTax_stop (by linarith) (by linarith), if_neg (by linarith), if_pos h2]
        ring
      · rw [refExpectedTax_skip (by linarith) (by norm_num) (by linarith)]
        rcases le_or_lt t 1000000 with h3 | h3
        · rw [refExpectedTax_stop (by linarith) (by linarith), if_neg (by linarith),
            if_neg (by linarith), if_pos h3]
          ring
        · rw [refExpectedTax_skip (by linarith) (by norm_num) (by linarith),
            refExpectedTax_last (by linarith), if_neg (by linarith),
            if_neg (by linarith), if_neg (by linarith)]
          ring

theorem refExpectedTax_newRates (t : ℚ) :
    refExpectedTax newRegimeRates t = newRegimeChain t := by
  unfold newRegimeRates newRegimeChain
  rcases le_or_lt t 0 with h0 | h0
  · rw [refExpectedTax_nonpos h0 (by norm_num), if_pos (by linarith)]
  · rcases le_or_lt t 300000 with h1 | h1
    · rw [refExpectedTax_stop h0 (by linarith), if_pos h1]
      ring
    · rw [refExpectedTax_skip (by linarith) (by norm_num) (by linarith)]
      rcases le_or_lt t 700000 with h2 | h2
      · rw [refExpectedTax_stop (by linarith) (by linarith), if_neg (by linarith), if_pos h2]
        ring
      · rw [refExpectedTax_skip (by linarith) (by norm_num) (by linarith)]
        rcases le_or_lt t 1000000 with h3 | h3
        · rw [refExpectedTax_stop (by linarith) (by linarith), if_neg (by linarith),
            if_neg (by linarith), if_pos h3]
          ring
        · rw [refExpectedTax_skip (by linarith) (by norm_num) (by linarith)]
          rcases le_or_lt t 1200000 with h4 | h4
          · rw [refExpectedTax_stop (by linarith) (by linarith), if_neg (by linarith),
              if_neg (by linarith), if_neg (by linarith), if_pos h4]
            ring
          · rw [refExpectedTax_skip (by linarith) (by norm_num) (by linarith)]
            rcases le_or_lt t 1500000 with h5 | h5
            · rw [refExpectedTax_stop (by linarith) (by linarith), if_neg (by linarith),
                if_neg (by linarith), if_neg (by linarith), if_neg (by linarith), if_pos h5]
              ring
            · rw [refExpectedTax_skip (by linarith) (by norm_num) (by linarith),
                refExpectedTax_last (by linarith), if_neg (by linarith),
                if_neg (by linarith), if_neg (by linarith), if_neg (by linarith),
                if_neg (by linarith)]
              ring

/-! ## Characterization of the validated income tax of the calculator -/

theorem calcValidatedTax_old (t : ℚ) :
    calcValidatedTax Regime.old t = (if 1 < oldRegimeChain t then oldRegimeChain t else 0) := by
  simp [calcValidatedTax]

theorem calcValidatedTax_new (t : ℚ) :
    calcValidatedTax Regime.new t = (if 1 < newRegimeChain t then newRegimeChain t else 0) := by
  simp [calcValidatedTax]

theorem validate_old_char (t : ℚ) :
    validateTaxCalculation t
      (if t ≤ 500000 then max 0 (oldRegimeChain t - 12500) else oldRegimeChain t)
      oldRegimeRates = calcValidatedTax Regime.old t := by
  simp only [validateTaxCalculation]
  rw [refExpectedTax_oldRates, calcValidatedTax_old]
  by_cases hT : t ≤ 500000
  · rw [if_pos hT,
      max_eq_left (show oldRegimeChain t - 12500 ≤ (0 : ℚ) by
        linarith [oldRegimeChain_le_rebate hT]),
      sub_zero, abs_of_nonneg (oldRegimeChain_nonneg t)]
    by_cases h1 : 1 < oldRegimeChain t
    · rw [if_pos (max_lt_iff.mpr ⟨by linarith, h1⟩), if_pos h1]
    · rw [if_neg (not_lt.mpr (le_trans (not_lt.mp h1) (le_max_right _ 1))), if_neg h1]
  · rw [if_neg hT, sub_self, abs_zero,
      if_neg (not_lt.mpr (le_trans zero_le_one (le_max_right _ 1))),
      if_pos (oldRegimeChain_gt_one (not_le.mp hT))]

theorem validate_new_char (t : ℚ) :
    validateTaxCalculation t
      (if t ≤ 700000 then max 0 (newRegimeChain t - 25000) else newRegimeChain t)
      newRegimeRates = calcValidatedTax Regime.new t := by
  simp only [validateTaxCalculation]
  rw [refExpectedTax_newRates, calcValidatedTax_new]
  by_cases hT : t ≤ 700000
  · rw [if_pos hT,
      max_eq_left (show newRegimeChain t - 25000 ≤ (0 : ℚ) by
        linarith [newRegimeChain_le_rebate hT]),
      sub_zero, abs_of_nonneg (newRegimeChain_nonneg t)]
    by_cases h1 : 1 < newRegimeChain t
    · rw [if_pos (max_lt_iff.mpr ⟨by linarith, h1⟩), if_pos h1]
    · rw [if_neg (not_lt.mpr (le_trans (not_lt.mp h1) (le_max_right _ 1))), if_neg h1]
  · rw [if_neg hT, sub_self, abs_zero,
      if_neg (not_lt.mpr (le_trans zero_le_one (le_max_right _ 1))),
      if_pos (newRegimeChain_gt_one (not_le.mp hT))]

theorem calcValidatedTax_nonneg (r : Regime) (t : ℚ) : 0 ≤ calcValidatedTax r t := by
  unfold calcValidatedTax
  split_ifs <;>
    first
      | exact oldRegimeChain_nonneg t
      | exact newRegimeChain_nonneg t
      | exact le_refl 0

theorem calcValidatedTax_mono (r : Regime) {a b : ℚ} (hab : a ≤ b) :
    calcValidatedTax r a ≤ calcValidatedTax r b := by
  rcases r with _ | _
  · rw [calcValidatedTax_old, calcValidatedTax_old]
    split_ifs with h1 h2 h2
    · exact oldRegimeChain_mono hab
    · exact absurd (lt_of_lt_of_le h1 (oldRegimeChain_mono hab)) h2
    · exact oldRegimeChain_nonneg b
    · exact le_refl 0
  · rw [calcValidatedTax_new, calcValidatedTax_new]
    split_ifs with h1 h2 h2
    · exact newRegimeChain_mono hab
    · exact absurd (lt_of_lt_of_le h1 (newRegimeChain_mono hab)) h2
    · exact newRegimeChain_nonneg b
    · exact le_refl 0

/-! ## The skew steps of the calculator reduce to the identity -/

theorem normalizeTaxComponents_exact (i c s : ℚ) :
    normalizeTaxComponents { incomeTax := i, cess := c, surcharge := s } (i + c + s) =
      { incomeTax := i, cess := c, surcharge := s } := by
  simp only [normalizeTaxComponents]
  have h : ([i, c, s] : List ℚ).sum - (i + c + s) = 0 := by
    simp only [List.sum_cons, List.sum_nil]
    ring
  rw [h, abs_zero, if_pos (by norm_num)]

theorem detectSkew_exact (a b c tot : ℚ) (h : a + b + c = tot) :
    (detectSkew [a, b, c] tot 0.01).hasSkew = false := by
  have h0 : tot - ([a, b, c] : List ℚ).sum = 0 := by
    simp only [List.sum_cons, List.sum_nil]
    rw [← h]
    ring
  simp only [detectSkew]
  rw [h0, abs_zero]
  exact decide_eq_false (by norm_num)

/-! ## Field characterization of the calculator result -/

theorem taxCalcCompute_fields (input : TaxInput) :
    taxCalcCompute input =
      { taxableIncome := calcTaxableIncome input,
        incomeTax := calcValidatedTax input.regime (calcTaxableIncome input),
        cess := calcValidatedTax input.regime (calcTaxableIncome input) * 0.04,
        surcharge := tieredSurcharge (calcTaxableIncome input)
          (calcValidatedTax input.regime (calcTaxableIncome input)),
        totalTax := calcValidatedTax input.regime (calcTaxableIncome input) +
          calcValidatedTax input.regime (calcTaxableIncome input) * 0.04 +
          tieredSurcharge (calcTaxableIncome input)
            (calcValidatedTax input.regime (calcTaxableIncome input)),
        effectiveRate :=
          if 0 < calcTaxableIncome input then
            (calcValidatedTax input.regime (calcTaxableIncome input) +
              calcValidatedTax input.regime (calcTaxableIncome input) * 0.04 +
              tieredSurcharge (calcTaxableIncome input)
                (calcValidatedTax input.regime (calcTaxableIncome input))) /
              calcTaxableIncome input * 100
          else 0,
        standardDeduction := calcStandardDeduction input } := by
  have hV : (if input.regime = Regime.old then
      validateTaxCalculation (calcTaxableIncome input)
        (if calcTaxableIncome input ≤ 500000 then
          max 0 (oldRegimeChain (calcTaxableIncome input) - 12500)
         else oldRegimeChain (calcTaxableIncome input)) oldRegimeRates
    else
      validateTaxCalculation (calcTaxableIncome input)
        (if calcTaxableIncome input ≤ 700000 then
          max 0 (newRegimeChain (calcTaxableIncome input) - 25000)
         else newRegimeChain (calcTaxableIncome input)) newRegimeRates) =
      calcValidatedTax input.regime (calcTaxableIncome input) := by
    by_cases hr : input.regime = Regime.old
    · rw [if_pos hr, validate_old_char, hr]
    · rw [if_neg hr, validate_new_char]
      have hnew : input.regime = Regime.new := by
        rcases input with ⟨_, _, r, _⟩
        rcases r with _ | _
        · exact absurd rfl hr
        · rfl
      rw [hnew]
  have e1 : (if input.isSalaried then
      (if input.regime = Regime.new then (75000 : ℚ) else 50000) else 0) =
      calcStandardDeduction input := rfl
  have e2 : max 0 (input.income - calcStandardDeduction input -
      (if input.regime = Regime.old then input.deductions else 0)) =
      calcTaxableIncome input := rfl
  simp only [taxCalcCompute]
  rw [e1, e2, hV, normalizeTaxComponents_exact, detectSkew_exact _ _ _ _ rfl]
  rfl

/-! ## Surcharge lemmas -/

theorem tieredSurcharge_eq (t v : ℚ) : tieredSurcharge t v = v * surchargeRate t := by
  unfold tieredSurcharge surchargeRate
  rcases le_or_lt t 5000000 with h1 | h1
  · rw [if_neg (by rintro ⟨hx, -⟩; linarith), if_neg (by rintro ⟨hx, -⟩; linarith),
      if_neg (by rintro ⟨hx, -⟩; linarith), if_neg (by intro hx; linarith), if_pos h1]
    ring
  · rcases le_or_lt t 10000000 with h2 | h2
    · rw [if_pos ⟨h1, h2⟩, if_neg (by linarith), if_pos h2]
    · rcases le_or_lt t 20000000 with h3 | h3
      · rw [if_neg (by rintro ⟨-, hx⟩; linarith), if_pos ⟨h2, h3⟩,
          if_neg (by linarith), if_neg (by linarith), if_pos h3]
      · rcases le_or_lt t 50000000 with h4 | h4
        · rw [if_neg (by rintro ⟨-, hx⟩; linarith), if_neg (by rintro ⟨-, hx⟩; linarith),
            if_pos ⟨h3, h4⟩, if_neg (by linarith), if_neg (by linarith),
            if_neg (by linarith), if_pos h4]
        · rw [if_neg (by rintro ⟨-, hx⟩; linarith), if_neg (by rintro ⟨-, hx⟩; linarith),
            if_neg (by rintro ⟨-, hx⟩; linarith), if_pos (by linarith),
            if_neg (by linarith), if_neg (by linarith), if_neg (by linarith),
            if_neg (by linarith)]

theorem surchargeRate_mono {a b : ℚ} (hab : a ≤ b) : surchargeRate a ≤ surchargeRate b := by
  unfold surchargeRate
  split_ifs <;> linarith

theorem surchargeRate_nonneg (t : ℚ) : 0 ≤ surchargeRate t := by
  unfold surchargeRate
  split_ifs <;> norm_num

/-! ## Field projections of the calculator result -/

theorem taxCalc_taxableIncome (input : TaxInput) :
    (taxCalcCompute input).taxableIncome = calcTaxableIncome input := by
  rw [taxCalcCompute_fields]

theorem taxCalc_incomeTax (input : TaxInput) :
    (taxCalcCompute input).incomeTax =
      calcValidatedTax input.regime (calcTaxableIncome input) := by
  rw [taxCalcCompute_fields]

theorem taxCalc_cess (input : TaxInput) :
    (taxCalcCompute input).cess =
      calcValidatedTax input.regime (calcTaxableIncome input) * 0.04 := by
  rw [taxCalcCompute_fields]

theorem taxCalc_surcharge (input : TaxInput) :
    (taxCalcCompute input).surcharge =
      tieredSurcharge (calcTaxableIncome input)
        (calcValidatedTax input.regime (calcTaxableIncome input)) := by
  rw [taxCalcCompute_fields]

theorem taxCalc_totalTax (input : TaxInput) :
    (taxCalcCompute input).totalTax =
      calcValidatedTax input.regime (calcTaxableIncome input) +
        calcValidatedTax input.regime (calcTaxableIncome input) * 0.04 +
        tieredSurcharge (calcTaxableIncome input)
          (calcValidatedTax input.regime (calcTaxableIncome input)) := by
  rw [taxCalcCompute_fields]

theorem taxCalc_effectiveRate (input : TaxInput) :
    (taxCalcCompute input).effectiveRate =
      (if 0 < calcTaxableIncome input then
        (calcValidatedTax input.regime (calcTaxableIncome input) +
          calcValidatedTax input.regime (calcTaxableIncome input) * 0.04 +
          tieredSurcharge (calcTaxableIncome input)
            (calcValidatedTax input.regime (calcTaxableIncome input))) /
          calcTaxableIncome input * 100
       else 0) := by
  rw [taxCalcCompute_fields]

/-! ## Monotonicity machinery -/

theorem calcTaxableIncome_mono (d : ℚ) (r : Regime) (s : Bool) {a b : ℚ} (hab : a ≤ b) :
    calcTaxableIncome { income := a, deductions := d, regime := r, isSalaried := s } ≤
      calcTaxableIncome { income := b, deductions := d, regime := r, isSalaried := s } := by
  unfold calcTaxableIncome calcStandardDeduction
  gcongr

theorem calcTotal_mono_t (r : Regime) {t1 t2 : ℚ} (h : t1 ≤ t2) :
    calcValidatedTax r t1 + calcValidatedTax r t1 * 0.04 +
        tieredSurcharge t1 (calcValidatedTax r t1) ≤
      calcValidatedTax r t2 + calcValidatedTax r t2 * 0.04 +
        tieredSurcharge t2 (calcValidatedTax r t2) := by
  have hv := calcValidatedTax_mono r h
  have hv1 := calcValidatedTax_nonneg r t1
  have hv2 := calcValidatedTax_nonneg r t2
  rw [tieredSurcharge_eq, tieredSurcharge_eq]
  have hs := surchargeRate_mono h
  have hs1 := surchargeRate_nonneg t1
  have hmul : calcValidatedTax r t1 * surchargeRate t1 ≤
      calcValidatedTax r t2 * surchargeRate t2 := mul_le_mul hv hs hs1 hv2
  linarith

theorem calculateTaxForRegime_eq (input : TaxInput) :
    calculateTaxForRegime input =
      postRebate input.regime (calcTaxableIncome input) * 1.04 := rfl

theorem postRebate_nonneg (r : Regime) (t : ℚ) : 0 ≤ postRebate r t := by
  unfold postRebate
  split_ifs
  · exact le_max_left 0 _
  · exact newRegimeChain_nonneg t
  · exact le_max_left 0 _
  · exact oldRegimeChain_nonneg t

theorem postRebate_mono (r : Regime) {t1 t2 : ℚ} (h : t1 ≤ t2) :
    postRebate r t1 ≤ postRebate r t2 := by
  unfold postRebate
  rcases r with _ | _
  · rw [if_neg (show ¬(Regime.old = Regime.new) by simp),
      if_neg (show ¬(Regime.old = Regime.new) by simp)]
    by_cases h1 : t1 ≤ 500000
    · by_cases h2 : t2 ≤ 500000
      · rw [if_pos h1, if_pos h2]
        exact max_le_max (le_refl 0) (sub_le_sub_right (oldRegimeChain_mono h) _)
      · rw [if_pos h1, if_neg h2]
        exact max_le (oldRegimeChain_nonneg t2)
          (le_trans (sub_le_self _ (by norm_num)) (oldRegimeChain_mono h))
    · rw [if_neg h1, if_neg (show ¬t2 ≤ 500000 by intro hx; exact h1 (le_trans h hx))]
      exact oldRegimeChain_mono h
  · rw [if_pos rfl, if_pos rfl]
    by_cases h1 : t1 ≤ 700000
    · by_cases h2 : t2 ≤ 700000
      · rw [if_pos h1, if_pos h2]
        exact max_le_max (le_refl 0) (sub_le_sub_right (newRegimeChain_mono h) _)
      · rw [if_pos h1, if_neg h2]
        exact max_le (newRegimeChain_nonneg t2)
          (le_trans (sub_le_self _ (by norm_num)) (newRegimeChain_mono h))
    · rw [if_neg h1, if_neg (show ¬t2 ≤ 700000 by intro hx; exact h1 (le_trans h hx))]
      exact newRegimeChain_mono h

/-! ## Step lemmas for the direct-calculator slab iteration -/

theorem p3SlabIter_stop {prev lim rate rem : ℚ} {rest : List P3Slab} (h : rem ≤ lim - prev) :
    p3SlabIter prev ({ limit := some lim, rate := rate } :: rest) rem = rem * rate := by
  simp only [p3SlabIter]
  rw [min_eq_left h, if_pos (show rem - rem ≤ 0 by linarith)]

theorem p3SlabIter_skip {prev lim rate rem : ℚ} {rest : List P3Slab}
    (h1 : lim - prev ≤ rem) (h2 : 0 < rem - (lim - prev)) :
    p3SlabIter prev ({ limit := some lim, rate := rate } :: rest) rem =
      (lim - prev) * rate + p3SlabIter lim rest (rem - (lim - prev)) := by
  simp only [p3SlabIter]
  rw [min_eq_right h1, if_neg (by linarith)]
  simp only [Option.getD_some]

theorem p3SlabIter_top {prev rate rem : ℚ} {rest : List P3Slab} :
    p3SlabIter prev ({ limit := none, rate := rate } :: rest) rem = rem * rate := by
  simp only [p3SlabIter]
  rw [if_pos (show rem - rem ≤ 0 by linarith)]

theorem slabsFor_senior {age : ℤ} (h60 : 60 ≤ age) (h80 : age < 80) :
    slabsFor ("old") age = replaceZeroBracketLimit p3OldRegimeSlabs 300000 := by
  simp [slabsFor, replaceZeroBracketLimit, p3OldRegimeSlabs, h60, h80]

theorem slabsFor_superSenior {age : ℤ} (h80 : 80 ≤ age) :
    slabsFor ("old") age =
      [{ limit := some 500000, rate := 0 }, { limit := some 1000000, rate := 0.20 },
       { limit := none, rate := 0.30 }] := by
  simp [slabsFor, p3OldRegimeSlabs, h80, show ¬age < 80 by omega]

theorem p3_superSenior_eq (t : ℚ) :
    p3Tax [{ limit := some 500000, rate := 0 }, { limit := some 1000000, rate := 0.20 },
       { limit := none, rate := 0.30 }] t =
      p3Tax (replaceZeroBracketLimit p3OldRegimeSlabs 500000) t := by
  have hrep : replaceZeroBracketLimit p3OldRegimeSlabs 500000 =
      [{ limit := some 500000, rate := 0 }, { limit := some 500000, rate := 0.05 },
       { limit := some 1000000, rate := 0.20 }, { limit := none, rate := 0.30 }] := by
    simp [replaceZeroBracketLimit, p3OldRegimeSlabs]
  rw [hrep]
  unfold p3Tax
  rcases le_or_lt t 500000 with h | h
  · rw [p3SlabIter_stop (by linarith), p3SlabIter_stop (by linarith)]
  · have hL : p3SlabIter 0 ({ limit := some 500000, rate := 0 } ::
        [{ limit := some 1000000, rate := (0.20 : ℚ) }, { limit := none, rate := 0.30 }]) t =
        ((500000 : ℚ) - 0) * 0 + p3SlabIter 500000
          [{ limit := some 1000000, rate := 0.20 }, { limit := none, rate := 0.30 }]
          (t - (500000 - 0)) :=
      p3SlabIter_skip (by linarith) (by linarith)
    have hR1 : p3SlabIter 0 ({ limit := some 500000, rate := 0 } ::
        [{ limit := some 500000, rate := (0.05 : ℚ) },
         { limit := some 1000000, rate := 0.20 }, { limit := none, rate := 0.30 }]) t =
        ((500000 : ℚ) - 0) * 0 + p3SlabIter 500000
          [{ limit := some 500000, rate := 0.05 },
           { limit := some 1000000, rate := 0.20 }, { limit := none, rate := 0.30 }]
          (t - (500000 - 0)) :=
      p3SlabIter_skip (by linarith) (by linarith)
    have hR2 : p3SlabIter 500000 ({ limit := some 500000, rate := (0.05 : ℚ) } ::
        [{ limit := some 1000000, rate := 0.20 }, { limit := none, rate := 0.30 }])
          (t - (500000 - 0)) =
        ((500000 : ℚ) - 500000) * 0.05 + p3SlabIter 500000
          [{ limit := some 1000000, rate := 0.20 }, { limit := none, rate := 0.30 }]
          (t - (500000 - 0) - (500000 - 500000)) :=
      p3SlabIter_skip (by linarith) (by linarith)
    rw [hL, hR1, hR2]
    have e : t - (500000 - 0) - ((500000 : ℚ) - 500000) = t - (500000 - 0) := by ring
    rw [e]
    ring

/-! ## Claim theorems -/

/-- Claim C7: for every fixed regime, deductions and salaried flag, the
total tax is monotone non-decreasing in gross income, both for
`calculateTaxForRegime` and for the calculator component, across the
rebate cut-offs and the surcharge tier boundaries. -/
theorem C7_totalTax_monotone (d : ℚ) (r : Regime) (s : Bool) {a b : ℚ} (hab : a ≤ b) :
    calculateTaxForRegime { income := a, deductions := d, regime := r, isSalaried := s } ≤
      calculateTaxForRegime { income := b, deductions := d, regime := r, isSalaried := s } ∧
    (taxCalcCompute { income := a, deductions := d, regime := r, isSalaried := s }).totalTax ≤
      (taxCalcCompute { income := b, deductions := d, regime := r, isSalaried := s }).totalTax := by
  have hT := calcTaxableIncome_mono d r s hab
  constructor
  · rw [calculateTaxForRegime_eq, calculateTaxForRegime_eq]
    exact mul_le_mul_of_nonneg_right (postRebate_mono r hT) (by norm_num)
  · rw [taxCalc_totalTax, taxCalc_totalTax]
    exact calcTotal_mono_t r hT

/-- Witness for C7 at a concrete pair of incomes spanning the new-regime
rebate cut-off and the first surcharge tier. -/
theorem C7_totalTax_monotone_witness :
    calculateTaxForRegime
        { income := 400000, deductions := 0, regime := Regime.new, isSalaried := true } ≤
      calculateTaxForRegime
        { income := 9999999, deductions := 0, regime := Regime.new, isSalaried := true } ∧
    (taxCalcCompute
        { income := 400000, deductions := 0, regime := Regime.new, isSalaried := true }).totalTax ≤
      (taxCalcCompute
        { income := 9999999, deductions := 0, regime := Regime.new, isSalaried := true }).totalTax :=
  C7_totalTax_monotone 0 Regime.new true (by norm_num)

/-- Claim C8: for old-regime inputs of the direct calculator, the senior
slab table (age 60 to 79) is bracket iteration over the standard table
with the zero-rate upper bound replaced by 300000, and the super-senior
table (age at least 80) computes the same tax as iteration over the
standard table with the zero-rate upper bound replaced by 500000. -/
theorem C8_age_adjusted_brackets (age : ℤ) (t : ℚ) (h60 : 60 ≤ age) :
    p3Tax (slabsFor ("old") age) t =
      p3Tax (replaceZeroBracketLimit p3OldRegimeSlabs
        (if age < 80 then 300000 else 500000)) t := by
  by_cases h80 : age < 80
  · rw [slabsFor_senior h60 h80, if_pos h80]
  · rw [slabsFor_superSenior (by omega), if_neg h80]
    exact p3_superSenior_eq t

/-- Witness for C8 at age 85 and taxable income 1200000. -/
theorem C8_age_adjusted_brackets_witness :
    p3Tax (slabsFor ("old") 85) 1200000 =
      p3Tax (replaceZeroBracketLimit p3OldRegimeSlabs
        (if (85 : ℤ) < 80 then 300000 else 500000)) 1200000 :=
  C8_age_adjusted_brackets 85 1200000 (by norm_num)

/-! ## Skew protection lemmas and claims C2, C3 -/

theorem jsMaxFold_cons (v : ℚ) (rest : List ℚ) : ∃ m, jsMaxFold (v :: rest) = some m := by
  rcases hm : jsMaxFold rest with _ | m
  · exact ⟨v, by simp [jsMaxFold, hm]⟩
  · exact ⟨max v m, by simp [jsMaxFold, hm]⟩

theorem jsMaxFold_mem {l : List ℚ} {m : ℚ} (h : jsMaxFold l = some m) : m ∈ l := by
  induction l generalizing m with
  | nil => simp [jsMaxFold] at h
  | cons v rest ih =>
    rcases hm : jsMaxFold rest with _ | m2
    · simp [jsMaxFold, hm] at h
      simp [h]
    · simp only [jsMaxFold, hm, Option.some.injEq] at h
      rcases max_choice v m2 with hc | hc
    

      · rw [← h, hc]
        exact List.mem_cons_self v rest
      · rw [← h, hc]
        exact List.mem_cons_of_mem v (ih hm)

theorem jsMaxFold_ge {l : List ℚ} {m : ℚ} (h : jsMaxFold l = some m) :
    ∀ x ∈ l, x ≤ m := by
  induction l generalizing m with
  | nil => simp [jsMaxFold] at h
  | cons v rest ih =>
    intro x hx
    rcases hm : jsMaxFold rest with _ | m2
    · have hrest : rest = [] := by
        cases rest with
        | nil => rfl
        | cons w ws =>
          rcases hw : jsMaxFold ws with _ | mw <;> simp [jsMaxFold, hw] at hm
      simp [jsMaxFold, hm] at h
      subst hrest
      rcases List.mem_singleton.mp hx with rfl
      exact le_of_eq h
    · simp only [jsMaxFold, hm, Option.some.injEq] at h
      rcases List.mem_cons.mp hx with rfl | hx2
      · rw [← h]; exact le_max_left _ _
      · rw [← h]; exact le_trans (ih hm x hx2) (le_max_right _ _)

theorem jsIndexOf_mem_spec {l : List ℚ} {x : ℚ} (h : x ∈ l) :
    0 ≤ jsIndexOf x l ∧ (jsIndexOf x l).toNat < l.length ∧
      l.getD (jsIndexOf x l).toNat 0 = x := by
  induction l with
  | nil => simp at h
  | cons v rest ih =>
    by_cases hv : v = x
    · refine ⟨?_, ?_, ?_⟩ <;> simp [jsIndexOf, hv]
    · have hx : x ∈ rest := by
        rcases List.mem_cons.mp h with rfl | hx2
        · exact absurd rfl hv
        · exact hx2
      obtain ⟨h0, hlen, hget⟩ := ih hx
      have hne : jsIndexOf x rest ≠ -1 := by omega
      have heq : jsIndexOf x (v :: rest) = jsIndexOf x rest + 1 := by
        simp [jsIndexOf, hv, hne]
      have htn : (jsIndexOf x rest + 1).toNat = (jsIndexOf x rest).toNat + 1 := by omega
      refine ⟨by omega, ?_, ?_⟩
      · rw [heq, htn]
        simpa using hlen
      · rw [heq, htn, List.getD_cons_succ]
        exact hget

theorem applySkew_out (d : ℚ) : ∀ (l : List ℚ) (k i : ℤ), k < i → applySkew d k i l = l := by
  intro l
  induction l with
  | nil => intro k i _; rfl
  | cons v rest ih =>
    intro k i hk
    simp only [applySkew]
    rw [if_neg (by omega)]
    rw [ih k (i + 1) (by omega)]

theorem applySkew_eq_set (d : ℚ) :
    ∀ (l : List ℚ) (k : ℕ) (i : ℤ), applySkew d (i + k) i l = l.set k (l.getD k 0 + d) := by
  intro l
  induction l with
  | nil => intro k i; rfl
  | cons v rest ih =>
    intro k i
    cases k with
    | zero =>
      simp only [applySkew, Nat.cast_zero, add_zero, eq_self_iff_true, if_true,
        List.getD_cons_zero, List.set_cons_zero]
      rw [applySkew_out d rest i (i + 1) (by omega)]
    | succ k =>
      simp only [applySkew, List.getD_cons_succ, List.set_cons_succ]
      rw [if_neg (by omega)]
      have harg : i + ((k + 1 : ℕ) : ℤ) = (i + 1) + (k : ℤ) := by push_cast; ring
      rw [harg, ih k (i + 1)]

theorem sum_set_getD : ∀ (l : List ℚ) (k : ℕ), k < l.length → ∀ a : ℚ,
    (l.set k a).sum = l.sum - l.getD k 0 + a := by
  intro l
  induction l with
  | nil => intro k hk; simp at hk
  | cons v rest ih =>
    intro k hk a
    cases k with
    | zero => simp [List.sum_cons]; ring
    | succ k =>
      simp only [List.set_cons_succ, List.sum_cons, List.getD_cons_succ]
      rw [ih k (by simpa using hk) a]
      ring


theorem C2_below_tolerance_unchanged (parts : List ℚ) (expectedTotal : ℚ)
    (h : |expectedTotal - parts.sum| < 0.01) :
    correctSkew parts expectedTotal = parts ∧
      |(correctSkew parts expectedTotal).sum - expectedTotal| < 0.01 := by
  have he : correctSkew parts expectedTotal = parts := by
    simp only [correctSkew]
    rw [if_pos h]
  refine ⟨he, ?_⟩
  rw [he, abs_sub_comm]
  exact h

theorem C2_witness :
    |(104 : ℚ) - ([100.004, 4.001, 0] : List ℚ).sum| < 0.01 ∧
      (correctSkew [100.004, 4.001, 0] 104 = [100.004, 4.001, 0] ∧
        |(correctSkew [100.004, 4.001, 0] 104).sum - 104| < 0.01) :=
  ⟨by rw [abs_lt]; norm_num [List.sum_cons, List.sum_nil],
   C2_below_tolerance_unchanged [100.004, 4.001, 0] 104
     (by rw [abs_lt]; norm_num [List.sum_cons, List.sum_nil])⟩

theorem C2_cex : (correctSkew [100.004, 4.001, 0] 104).sum ≠ 104 := by
  have he : correctSkew [100.004, 4.001, 0] 104 = [100.004, 4.001, 0] := by
    simp only [correctSkew]
    rw [if_pos (by rw [abs_lt]; norm_num [List.sum_cons, List.sum_nil])]
  rw [he]
  norm_num [List.sum_cons, List.sum_nil]

theorem C3_above_tolerance_corrects (parts : List ℚ) (expectedTotal : ℚ)
    (hne : parts ≠ []) (hd : 0.01 ≤ |expectedTotal - parts.sum|) :
    ∃ k : ℕ, k < parts.length ∧ (∀ x ∈ parts, x ≤ parts.getD k 0) ∧
      correctSkew parts expectedTotal =
        parts.set k (parts.getD k 0 + (expectedTotal - parts.sum)) ∧
      (correctSkew parts expectedTotal).sum = expectedTotal := by
  obtain ⟨v, rest, rfl⟩ : ∃ v rest, parts = v :: rest := by
    cases parts with
    | nil => exact absurd rfl hne
    | cons v rest => exact ⟨v, rest, rfl⟩
  obtain ⟨m, hm⟩ := jsMaxFold_cons v rest
  have hmem := jsMaxFold_mem hm
  have hge := jsMaxFold_ge hm
  obtain ⟨hge0, hlen, hget⟩ := jsIndexOf_mem_spec hmem
  have hset : correctSkew (v :: rest) expectedTotal =
      (v :: rest).set (jsIndexOf m (v :: rest)).toNat
        ((v :: rest).getD (jsIndexOf m (v :: rest)).toNat 0 +
          (expectedTotal - (v :: rest).sum)) := by
    simp only [correctSkew]
    rw [if_neg (not_lt.mpr hd), hm]
    have hidx : jsIndexOf m (v :: rest) =
        (0 : ℤ) + ((jsIndexOf m (v :: rest)).toNat : ℤ) := by omega
    calc applySkew (expectedTotal - (v :: rest).sum) (jsIndexOf m (v :: rest)) 0 (v :: rest)
        = applySkew (expectedTotal - (v :: rest).sum)
            ((0 : ℤ) + ((jsIndexOf m (v :: rest)).toNat : ℤ)) 0 (v :: rest) := by rw [← hidx]
      _ = _ := applySkew_eq_set _ _ _ 0
  refine ⟨(jsIndexOf m (v :: rest)).toNat, hlen, ?_, hset, ?_⟩
  · intro x hx
    rw [hget]
    exact hge x hx
  · rw [hset, sum_set_getD _ _ hlen]
    ring

theorem C3_witness :
    ([100, 4, 0] : List ℚ) ≠ [] ∧ (0.01 : ℚ) ≤ |104.02 - ([100, 4, 0] : List ℚ).sum| ∧
      (∃ k : ℕ, k < ([100, 4, 0] : List ℚ).length ∧
        (∀ x ∈ ([100, 4, 0] : List ℚ), x ≤ ([100, 4, 0] : List ℚ).getD k 0) ∧
        correctSkew [100, 4, 0] 104.02 =
          ([100, 4, 0] : List ℚ).set k
            (([100, 4, 0] : List ℚ).getD k 0 + (104.02 - ([100, 4, 0] : List ℚ).sum)) ∧
        (correctSkew [100, 4, 0] 104.02).sum = 104.02) :=
  ⟨by simp, by
    rw [show ([100, 4, 0] : List ℚ).sum = 104 from by norm_num [List.sum_cons, List.sum_nil]]
    exact le_trans (by norm_num) (le_abs_self _),
   C3_above_tolerance_corrects [100, 4, 0] 104.02 (by simp) (by
    rw [show ([100, 4, 0] : List ℚ).sum = 104 from by norm_num [List.sum_cons, List.sum_nil]]
    exact le_trans (by norm_num) (le_abs_self _))⟩

theorem C3_cex : correctSkew [100, 4, 0] 104.02 = [100.02, 4, 0] ∧
    ([100.02, 4, 0] : List ℚ) ≠ [100, 4, 0] := by
  constructor
  · have hsum : ([100, 4, 0] : List ℚ).sum = 104 := by norm_num [List.sum_cons, List.sum_nil]
    simp only [correctSkew, hsum]
    rw [if_neg (by rw [abs_lt]; norm_num)]
    have hm : jsMaxFold [100, 4, 0] = some 100 := by norm_num [jsMaxFold, max_def]
    simp only [hm]
    have hi : jsIndexOf (100 : ℚ) [100, 4, 0] = 0 := by norm_num [jsIndexOf]
    rw [hi]
    norm_num [applySkew]
  · norm_num


/-! ## Remaining claims -/

theorem slabLoop_nonpos : ∀ (slabs : List TISlab) {rem : ℚ}, rem ≤ 0 → slabLoop slabs rem = 0
  | [], _, _ => rfl
  | _ :: _, _, h => by simp only [slabLoop]; rw [if_pos h]

theorem slabLoop_stop {lo hi rate rem : ℚ} {rest : List TISlab}
    (h0 : 0 < rem) (h : rem ≤ hi - lo) :
    slabLoop ({ lo := lo, hi := some hi, rate := rate } :: rest) rem = rem * (rate / 100) := by
  simp only [slabLoop]
  rw [if_neg (by linarith), min_eq_left h, slabLoop_nonpos rest (by linarith), add_zero]

theorem slabLoop_skip {lo hi rate rem : ℚ} {rest : List TISlab}
    (h0 : 0 < rem) (h : hi - lo ≤ rem) :
    slabLoop ({ lo := lo, hi := some hi, rate := rate } :: rest) rem =
      (hi - lo) * (rate / 100) + slabLoop rest (rem - (hi - lo)) := by
  simp only [slabLoop]
  rw [if_neg (by linarith), min_eq_right h]

theorem slabLoop_topSlab {lo rate rem : ℚ} {rest : List TISlab} (h0 : 0 < rem) :
    slabLoop ({ lo := lo, hi := none, rate := rate } :: rest) rem = rem * (rate / 100) := by
  simp only [slabLoop]
  rw [if_neg (by linarith), slabLoop_nonpos rest (by linarith), add_zero]

/-- Claim C10 amended part: for the old regime the iterative slab loop over
the hardcoded table agrees with the closed-form if-chain everywhere. -/
theorem C10_old_loop_eq_chain (t : ℚ) :
    slabLoop taxSlabs2024_25OldSlabs t = oldRegimeChain t := by
  unfold taxSlabs2024_25OldSlabs oldRegimeChain
  rcases le_or_lt t 0 with h0 | h0
  · rw [slabLoop_nonpos _ h0, if_pos (by linarith)]
  · rcases le_or_lt t 250000 with h1 | h1
    · rw [slabLoop_stop h0 (by linarith), if_pos h1]
      ring
    · rw [slabLoop_skip h0 (by linarith)]
      rcases le_or_lt t 500000 with h2 | h2
      · rw [slabLoop_stop (by linarith) (by linarith), if_neg (by linarith), if_pos h2]
        ring
      · rw [slabLoop_skip (by linarith) (by linarith)]
        rcases le_or_lt t 1000000 with h3 | h3
        · rw [slabLoop_stop (by linarith) (by linarith), if_neg (by linarith),
            if_neg (by linarith), if_pos h3]
          ring
        · rw [slabLoop_skip (by linarith) (by linarith), slabLoop_topSlab (by linarith),
            if_neg (by linarith), if_neg (by linarith), if_neg (by linarith)]
          ring

/-- Claim C10 counterexample: at taxable income 650000 the new-regime loop
and the new-regime if-chain disagree (20000 against 17500). -/
theorem C10_cex : slabLoop taxSlabs2024_25NewSlabs 650000 = 20000 ∧
    newRegimeChain 650000 = 17500 ∧ (20000 : ℚ) ≠ 17500 := by
  refine ⟨?_, by norm_num [newRegimeChain], by norm_num⟩
  unfold taxSlabs2024_25NewSlabs
  rw [slabLoop_skip (by norm_num) (by norm_num)]
  rw [slabLoop_skip (by norm_num) (by norm_num)]
  rw [slabLoop_stop (by norm_num) (by norm_num)]
  norm_num

theorem find_new : (getTaxSlabs ("2024-25")).find?
    (fun slab => slab.regime == ("new" : String)) =
    some { regime := "new", financialYear := "2024-25", slabs := taxSlabs2024_25NewSlabs } := rfl

theorem find_old : (getTaxSlabs ("2024-25")).find?
    (fun slab => slab.regime == ("old" : String)) =
    some { regime := "old", financialYear := "2024-25", slabs := taxSlabs2024_25OldSlabs } := rfl


theorem find_other {regime : String} (h1 : regime ≠ "new") (h2 : regime ≠ "old") :
    (getTaxSlabs ("2024-25")).find? (fun slab => slab.regime == regime) = none := by
  simp only [getTaxSlabs, TAX_SLABS_2024_25, List.find?]
  rw [show (("new" : String) == regime) = false from beq_eq_false_iff_ne.mpr (Ne.symm h1),
    show (("old" : String) == regime) = false from beq_eq_false_iff_ne.mpr (Ne.symm h2)]

/-- Claim C4 amended: the service produces a result precisely when the
regime string is recognized; negative incomes and deductions are accepted
and flow into the computation. -/
theorem C4_no_input_validation (income deductions : ℚ) (regime : String) :
    (∃ res, tiCalculateTax income deductions regime = Except.ok res) ↔
      (regime = "old" ∨ regime = "new") := by
  constructor
  · rintro ⟨res, hres⟩
    by_cases h1 : regime = "new"
    · exact Or.inr h1
    · by_cases h2 : regime = "old"
      · exact Or.inl h2
      · rw [tiCalculateTax, find_other h1 h2] at hres
        exact absurd hres (by simp)
  · intro h
    rcases h with h | h
    · subst h
      exact ⟨_, by rw [tiCalculateTax, find_old]⟩
    · subst h
      exact ⟨_, by rw [tiCalculateTax, find_new]⟩

/-- Claim C4 counterexample: a negative income and negative deductions are
not rejected; the service returns a fully formed zero result. -/
theorem C4_cex : tiCalculateTax (-1000) (-50) ("new") =
    Except.ok ⟨-1000, 0, 0, 0, 0, 0⟩ := by
  simp only [tiCalculateTax, find_new]
  rw [show (("new" : String) == ("old" : String)) = false from rfl]
  simp only [Bool.false_eq_true, if_false]
  rw [slabLoop_nonpos _ (by norm_num : (-1000 : ℚ) ≤ 0)]
  norm_num [tieredSurcharge]


theorem tiEval_surcharge_case : tiCalculateTax 6000000 0 ("new") =
    Except.ok ⟨6000000, 1500000, 150000, 66000, 1716000, 143 / 5⟩ := by
  simp only [tiCalculateTax, find_new]
  rw [show (("new" : String) == ("old" : String)) = false from rfl]
  simp only [Bool.false_eq_true, if_false]
  have hloop : slabLoop taxSlabs2024_25NewSlabs 6000000 = 1500000 := by
    unfold taxSlabs2024_25NewSlabs
    rw [slabLoop_skip (by norm_num) (by norm_num), slabLoop_skip (by norm_num) (by norm_num),
      slabLoop_skip (by norm_num) (by norm_num), slabLoop_skip (by norm_num) (by norm_num),
      slabLoop_skip (by norm_num) (by norm_num), slabLoop_topSlab (by norm_num)]
    norm_num
  rw [hloop]
  norm_num [tieredSurcharge]

/-- Claim C6 amended: in the calculator, totalTax decomposes as
incomeTax + cess + surcharge with the cess computed on the (validated)
post-rebate tax alone; in the service, totalTax = incomeTax + surcharge +
cess but the cess base includes the surcharge, and there is no rebate. -/
theorem C6_total_decomposition :
    (∀ input : TaxInput,
      (taxCalcCompute input).totalTax =
          (taxCalcCompute input).incomeTax + (taxCalcCompute input).cess +
            (taxCalcCompute input).surcharge ∧
        (taxCalcCompute input).cess = (taxCalcCompute input).incomeTax * 0.04) ∧
    (∀ (income deductions : ℚ) (regime : String) (res : TIResult),
      tiCalculateTax income deductions regime = Except.ok res →
        res.totalTax = res.incomeTax + res.surcharge + res.cess ∧
          res.cess = (res.incomeTax + res.surcharge) * 0.04) := by
  constructor
  · intro input
    rw [taxCalc_totalTax, taxCalc_incomeTax, taxCalc_cess, taxCalc_surcharge]
    exact ⟨rfl, rfl⟩
  · intro income deductions regime res hres
    rcases hf : (getTaxSlabs ("2024-25")).find? (fun slab => slab.regime == regime) with _ | tbl
    · rw [tiCalculateTax, hf] at hres
      exact absurd hres (by simp)
    · simp only [tiCalculateTax, hf] at hres
      rw [Except.ok.injEq] at hres
      subst hres
      exact ⟨rfl, rfl⟩

/-- Witness for C6 at a calculator input and at the service result for a
six-million income in the new regime. -/
theorem C6_total_decomposition_witness :
    ((taxCalcCompute ⟨800000, 0, Regime.new, true⟩).totalTax =
        (taxCalcCompute ⟨800000, 0, Regime.new, true⟩).incomeTax +
          (taxCalcCompute ⟨800000, 0, Regime.new, true⟩).cess +
          (taxCalcCompute ⟨800000, 0, Regime.new, true⟩).surcharge ∧
      (taxCalcCompute ⟨800000, 0, Regime.new, true⟩).cess =
        (taxCalcCompute ⟨800000, 0, Regime.new, true⟩).incomeTax * 0.04) ∧
    ((⟨6000000, 1500000, 150000, 66000, 1716000, 143 / 5⟩ : TIResult).totalTax =
        (⟨6000000, 1500000, 150000, 66000, 1716000, 143 / 5⟩ : TIResult).incomeTax +
          (⟨6000000, 1500000, 150000, 66000, 1716000, 143 / 5⟩ : TIResult).surcharge +
          (⟨6000000, 1500000, 150000, 66000, 1716000, 143 / 5⟩ : TIResult).cess ∧
      (⟨6000000, 1500000, 150000, 66000, 1716000, 143 / 5⟩ : TIResult).cess =
        ((⟨6000000, 1500000, 150000, 66000, 1716000, 143 / 5⟩ : TIResult).incomeTax +
          (⟨6000000, 1500000, 150000, 66000, 1716000, 143 / 5⟩ : TIResult).surcharge) * 0.04) :=
  ⟨C6_total_decomposition.1 ⟨800000, 0, Regime.new, true⟩,
    C6_total_decomposition.2 6000000 0 ("new") _ tiEval_surcharge_case⟩

/-- Claim C6 counterexample: in the service result for income 6000000
(new regime) the cess is 66000, not 4 percent of the income tax alone
(which would be 60000): the surcharge sits inside the cess base. -/
theorem C6_cex : ∃ res : TIResult, tiCalculateTax 6000000 0 ("new") = Except.ok res ∧
    res.cess ≠ res.incomeTax * 0.04 :=
  ⟨⟨6000000, 1500000, 150000, 66000, 1716000, 143 / 5⟩, tiEval_surcharge_case, by norm_num⟩


/-- Claim C5 amended: the calculator result has effectiveRate equal to
totalTax / taxableIncome × 100 when taxableIncome is positive and 0
otherwise; the divisor is the taxable income, not the gross income. -/
theorem C5_effectiveRate_over_taxable (input : TaxInput) :
    (taxCalcCompute input).effectiveRate =
      (if 0 < (taxCalcCompute input).taxableIncome then
        (taxCalcCompute input).totalTax / (taxCalcCompute input).taxableIncome * 100
       else 0) := by
  rw [taxCalc_effectiveRate, taxCalc_taxableIncome, taxCalc_totalTax]

/-- Claim C5 counterexample: for gross income 1000000 (new regime,
salaried) the gross income is positive, yet the returned effective rate
differs from totalTax / grossIncome × 100: it is 884/185 (about 4.78),
computed against the taxable income 925000, not 4.42. -/
theorem C5_cex : (0 : ℚ) < 1000000 ∧
    (taxCalcCompute ⟨1000000, 0, Regime.new, true⟩).effectiveRate ≠
      (taxCalcCompute ⟨1000000, 0, Regime.new, true⟩).totalTax / 1000000 * 100 := by
  have hT : calcTaxableIncome ⟨1000000, 0, Regime.new, true⟩ = 925000 := by
    simp [calcTaxableIncome, calcStandardDeduction, sup_eq_max, max_def]
    norm_num
  have hV : calcValidatedTax Regime.new 925000 = 42500 := by
    rw [calcValidatedTax_new]
    norm_num [newRegimeChain]
  refine ⟨by norm_num, ?_⟩
  rw [taxCalc_effectiveRate, taxCalc_totalTax]
  simp only [hT, hV]
  norm_num [tieredSurcharge]

/-- Claim C1: the two FY 2024-25 worked examples.  calculateTaxForRegime
reproduces both; the calculator component reproduces the new-regime
example exactly, but on the old-regime example its validation step undoes
the rebate and it returns totalTax 7800 instead of the specified 0. -/
theorem C1_worked_examples :
    calculateTaxForRegime ⟨600000, 150000, Regime.old, true⟩ = 0 ∧
    calculateTaxForRegime ⟨1000000, 0, Regime.new, true⟩ = 44200 ∧
    ((taxCalcCompute ⟨1000000, 0, Regime.new, true⟩).taxableIncome = 925000 ∧
      (taxCalcCompute ⟨1000000, 0, Regime.new, true⟩).incomeTax = 42500 ∧
      (taxCalcCompute ⟨1000000, 0, Regime.new, true⟩).cess = 1700 ∧
      (taxCalcCompute ⟨1000000, 0, Regime.new, true⟩).surcharge = 0 ∧
      (taxCalcCompute ⟨1000000, 0, Regime.new, true⟩).totalTax = 44200) ∧
    (taxCalcCompute ⟨600000, 150000, Regime.old, true⟩).totalTax = 7800 := by
  have hT2 : calcTaxableIncome ⟨1000000, 0, Regime.new, true⟩ = 925000 := by
    simp [calcTaxableIncome, calcStandardDeduction, sup_eq_max, max_def]
    norm_num
  have hV2 : calcValidatedTax Regime.new 925000 = 42500 := by
    rw [calcValidatedTax_new]
    norm_num [newRegimeChain]
  have hT1 : calcTaxableIncome ⟨600000, 150000, Regime.old, true⟩ = 400000 := by
    simp [calcTaxableIncome, calcStandardDeduction, sup_eq_max, max_def]
    norm_num
  have hV1 : calcValidatedTax Regime.old 400000 = 7500 := by
    rw [calcValidatedTax_old]
    norm_num [oldRegimeChain]
  refine ⟨?_, ?_, ⟨?_, ?_, ?_, ?_, ?_⟩, ?_⟩
  · simp [calculateTaxForRegime, oldRegimeChain, newRegimeChain, sup_eq_max, max_def]
    norm_num
  · simp [calculateTaxForRegime, oldRegimeChain, newRegimeChain, sup_eq_max, max_def]
    norm_num
  · rw [taxCalc_taxableIncome, hT2]
  · rw [taxCalc_incomeTax, hT2, hV2]
  · rw [taxCalc_cess, hT2, hV2]
    norm_num
  · rw [taxCalc_surcharge, hT2, hV2]
    norm_num [tieredSurcharge]
  · rw [taxCalc_totalTax, hT2, hV2]
    norm_num [tieredSurcharge]
  · rw [taxCalc_totalTax, hT1, hV1]
    norm_num [tieredSurcharge]


theorem calculateMarginalTaxBenefit_old_eq (income amount : ℚ) :
    calculateMarginalTaxBenefit income amount Regime.old =
      amount * claimOldBracketRate income * 1.04 := by
  unfold calculateMarginalTaxBenefit claimOldBracketRate
  rw [if_neg (show ¬(Regime.old = Regime.new) by simp)]
  rcases le_or_lt income 250000 with h1 | h1
  · rw [if_neg (by linarith), if_neg (by linarith), if_neg (by linarith), if_pos h1]
  · rcases le_or_lt income 500000 with h2 | h2
    · rw [if_neg (by linarith), if_neg (by linarith), if_pos (by linarith),
        if_neg (by linarith), if_pos h2]
    · rcases le_or_lt income 1000000 with h3 | h3
      · rw [if_neg (by linarith), if_pos (by linarith), if_neg (by linarith),
          if_neg (by linarith), if_pos h3]
      · rw [if_pos (by linarith), if_neg (by linarith), if_neg (by linarith),
          if_neg (by linarith)]

/-- Claim C9 amended: for every old-regime input with section 80C headroom,
the emitted maximize-80c suggestion has potentialSaving equal to the
headroom times the marginal rate times 1.04, where the marginal rate is
the rate of the old-regime bracket containing the GROSS income (not the
taxable income). -/
theorem C9_headroom_saving (input : TaxInput) (h1 : input.regime = Regime.old)
    (h2 : input.deductions < 150000) :
    ∃ s ∈ generateOptimizationSuggestions input, s.id = "maximize-80c" ∧
      s.potentialSaving =
        (150000 - input.deductions) * claimOldBracketRate input.income * 1.04 := by
  refine ⟨{ id := "maximize-80c",
            potentialSaving :=
              calculateMarginalTaxBenefit input.income (150000 - input.deductions) Regime.old,
            applicability := 85, complexity := 50 }, ?_, rfl,
    calculateMarginalTaxBenefit_old_eq _ _⟩
  simp only [generateOptimizationSuggestions, List.mem_mergeSort]
  simp [h1, h2]

/-- Witness for C9 at income 550000 with deductions 40000. -/
theorem C9_headroom_saving_witness :
    ∃ s ∈ generateOptimizationSuggestions ⟨550000, 40000, Regime.old, true⟩,
      s.id = "maximize-80c" ∧
      s.potentialSaving = ((150000 : ℚ) - 40000) * claimOldBracketRate 550000 * 1.04 :=
  C9_headroom_saving ⟨550000, 40000, Regime.old, true⟩ rfl (by norm_num)

/-- Claim C9 counterexample: for income 550000, deductions 40000 (old
regime, salaried), the emitted maximize-80c suggestion carries
potentialSaving 22880 (rate 0.2, selected by the gross income 550000),
whereas the rate of the bracket containing the taxable income
550000 - 50000 - 40000 = 460000 is 0.05, which would give 5720. -/
theorem C9_cex :
    (∃ s ∈ generateOptimizationSuggestions ⟨550000, 40000, Regime.old, true⟩,
      s.id = "maximize-80c" ∧ s.potentialSaving = 22880) ∧
    (22880 : ℚ) ≠ ((150000 : ℚ) - 40000) *
      claimOldBracketRate (550000 - 50000 - 40000) * 1.04 := by
  constructor
  · refine ⟨{ id := "maximize-80c",
              potentialSaving := calculateMarginalTaxBenefit 550000 (150000 - 40000) Regime.old,
              applicability := 85, complexity := 50 }, ?_, rfl, ?_⟩
    · simp only [generateOptimizationSuggestions, List.mem_mergeSort]
      simp
      norm_num
    · simp [calculateMarginalTaxBenefit]
      norm_num
  · norm_num [claimOldBracketRate]


end OpenTaxNext
